import Mathlib

/-!
Shallow embedding of the socmind-client chat UI state logic.

Sources embedded here:
- src/unnamed/part_000 (src/app/page.tsx): the Home component's state
  (chats, currentMessages, selectedChat) and its handlers
  (addChatIfNotExists, the newChat / chatHistory / newMessage socket
  handlers, handleChatSelect, addNewChat, addNewMessage);
- src/src/api/chat.ts: the four API client operations, with the HTTP
  response modelled as a record carrying the ok flag, statusText and the
  already-parsed JSON body;
- src/src/components/Sidebar.tsx: handleCreateChat (member-selection
  validation before the createChat call);
- src/src/components/ChatArea.tsx: handleSendMessage (trim guard and
  optimistic message construction).

React state updates are modelled as pure state-transition functions; the
commands a handler emits on the socket are returned explicitly.
-/

namespace SocmindClient

/-- Message content payload (the `content.text` field used by the client). -/
structure Content where
  text : String
deriving DecidableEq, Repr

/-- A chat message, as used by the client (fields read or written in src). -/
structure Message where
  id : String
  type : String
  senderId : String
  chatId : String
  content : Content
  createdAt : String
deriving DecidableEq, Repr

/-- A chat, as used by the client (fields read or written in src). -/
structure Chat where
  id : String
  name : Option String
  topic : Option String
  context : Option String
  creator : Option String
  createdAt : String
  updatedAt : String
  memberIds : List String
  latestMessage : Option Message
deriving DecidableEq, Repr

/-- A chat participant (src/src/api/chat.ts and the member screens). -/
structure Member where
  id : String
  name : String
  email : Option String
  type : String
  systemMessage : Option String
  description : Option String
deriving DecidableEq, Repr

/-- A command the client emits on the socket (`socket.emit` in page.tsx). -/
inductive Command where
  | chatHistoryReq (chatId : String)
  | sendMessage (chatId : String) (content : String)
deriving DecidableEq, Repr

/-- The Home component's state: `chats`, `currentMessages`, `selectedChat`
(page.tsx `useState` hooks; `selectedChatRef` mirrors `selectedChat`), plus
whether the socket handle is non-null. -/
structure HomeState where
  chats : List Chat
  currentMessages : List Message
  selectedChat : Option Chat
  socketConnected : Bool
deriving DecidableEq, Repr

/-- page.tsx `addChatIfNotExists`: if some existing chat has the new chat's
id, keep the list; otherwise append the new chat at the end. -/
def addChatIfNotExists (prevChats : List Chat) (newChat : Chat) : List Chat :=
  if prevChats.any fun chat => chat.id == newChat.id then prevChats
  else prevChats ++ [newChat]

/-- page.tsx handler for the `newChat` socket event: delegates to
`addChatIfNotExists`. -/
def handleNewChat (st : HomeState) (newChat : Chat) : HomeState :=
  { st with chats := addChatIfNotExists st.chats newChat }

/-- page.tsx handler for the `chatHistory` socket event: it calls
`setCurrentMessages(chatData.messages)` unconditionally; the payload's
`chatId` field is ignored by the handler (mirrored faithfully here). -/
def handleChatHistory (st : HomeState) (chatId : String)
    (messages : List Message) : HomeState :=
  { st with currentMessages := messages }

/-- page.tsx `handleNewMessage` (the `newMessage` socket handler): update
`latestMessage` on every chat whose id equals the message's chatId, and
append to `currentMessages` only when the selected chat's id matches. -/
def handleNewMessage (st : HomeState) (newMessage : Message) : HomeState :=
  { st with
    chats := st.chats.map fun chat =>
      if chat.id == newMessage.chatId then
        { chat with latestMessage := some newMessage }
      else chat
    currentMessages :=
      match st.selectedChat with
      | some sel =>
          if sel.id == newMessage.chatId then
            st.currentMessages ++ [newMessage]
          else st.currentMessages
      | none => st.currentMessages }

/-- page.tsx `handleChatSelect`: set the selected chat, clear the message
view immediately, and (when the socket is non-null) emit a `chatHistory`
request for the chat's id. -/
def handleChatSelect (st : HomeState) (chat : Chat) :
    HomeState × List Command :=
  ({ st with selectedChat := some chat, currentMessages := [] },
   if st.socketConnected then [Command.chatHistoryReq chat.id] else [])

/-- page.tsx `addNewChat`: `addChatIfNotExists` then `handleChatSelect`. -/
def addNewChat (st : HomeState) (newChat : Chat) : HomeState × List Command :=
  handleChatSelect (handleNewChat st newChat) newChat

/-- page.tsx `addNewMessage` (passed to ChatArea as `onSendMessage`):
append the message to `currentMessages` and (when the socket is non-null)
emit a `sendMessage` command carrying the chat id and the text. The chat
list is not touched. -/
def addNewMessage (st : HomeState) (chatId : String) (newMessage : Message) :
    HomeState × List Command :=
  ({ st with currentMessages := st.currentMessages ++ [newMessage] },
   if st.socketConnected then
     [Command.sendMessage chatId newMessage.content.text]
   else [])

/-- An HTTP response as the API client observes it: the ok flag, the status
text, and the parsed JSON body (src/src/api/chat.ts `fetch` result). -/
structure ApiResponse (α : Type) where
  ok : Bool
  statusText : String
  json : α
deriving DecidableEq, Repr

/-- Request body for `createChat` (src/src/api/chat.ts CreateChatData). -/
structure CreateChatData where
  memberIds : List String
  name : Option String
  topic : Option String
  creator : Option String
  context : Option String
deriving DecidableEq, Repr

/-- Request body for `updateMember` (src/src/api/chat.ts). -/
structure UpdateMemberData where
  memberId : String
  name : Option String
  email : Option String
  systemMessage : Option String
  description : Option String
  type : Option String
deriving DecidableEq, Repr

/-- Request body for `updateChat` (src/src/api/chat.ts). -/
structure UpdateChatData where
  chatId : String
  name : Option String
  topic : Option String
  context : Option String
  conclusion : Option String
  creator : Option String
deriving DecidableEq, Repr

/-- Response body of `updateChat` (src/src/api/chat.ts UpdatedChat). -/
structure UpdatedChat where
  id : String
  name : Option String
  createdAt : String
  updatedAt : String
  context : Option String
  creator : Option String
  topic : Option String
  conclusion : Option String
deriving DecidableEq, Repr

/-- chat.ts `chatApi.getAllMembers`: throw on a non-ok response, carrying
the statusText in the message; otherwise return the parsed body. -/
def getAllMembers (response : ApiResponse (List Member)) :
    Except String (List Member) :=
  if response.ok then Except.ok response.json
  else Except.error ("Failed to fetch members: " ++ response.statusText)

/-- chat.ts `chatApi.createChat`. -/
def createChat (chatData : CreateChatData) (response : ApiResponse Chat) :
    Except String Chat :=
  if response.ok then Except.ok response.json
  else Except.error ("Failed to create chat: " ++ response.statusText)

/-- chat.ts `chatApi.updateMember`. -/
def updateMember (memberData : UpdateMemberData)
    (response : ApiResponse Member) : Except String Member :=
  if response.ok then Except.ok response.json
  else Except.error ("Failed to update member: " ++ response.statusText)

/-- chat.ts `chatApi.updateChat`. -/
def updateChat (chatData : UpdateChatData)
    (response : ApiResponse UpdatedChat) : Except String UpdatedChat :=
  if response.ok then Except.ok response.json
  else Except.error ("Failed to update chat: " ++ response.statusText)

/-- The hardcoded user id in Sidebar.tsx and ChatArea.tsx. -/
def userId : String := "user"

/-- Sidebar component state relevant to `handleCreateChat`. -/
structure SidebarState where
  selectedMembers : List String
  error : Option String
  isDropdownOpen : Bool
  isCreatingChat : Bool
deriving DecidableEq, Repr

/-- Sidebar.tsx `handleCreateChat`: with zero selected members, set the
inline error and return before any API call (no request issued); otherwise
issue the createChat request (memberIds plus the user id, generated name)
and, on success, pass the new chat to `onNewChat` (page.tsx `addNewChat`);
on failure, set the inline error. The third component is the request
issued, `none` when no network call is made. -/
def handleCreateChat (st : SidebarState) (home : HomeState)
    (apiResult : Except String Chat) :
    SidebarState × HomeState × Option CreateChatData :=
  if st.selectedMembers.length == 0 then
    ({ st with error := some "Please select at least one member" }, home, none)
  else
    let request : CreateChatData :=
      { memberIds := st.selectedMembers ++ [userId]
        name := some ("Chat with " ++ String.intercalate ", " st.selectedMembers)
        topic := none, creator := none, context := none }
    match apiResult with
    | Except.ok newChat =>
        ({ st with isDropdownOpen := false, selectedMembers := [],
                   error := none, isCreatingChat := false },
         (addNewChat home newChat).1, some request)
    | Except.error msg =>
        ({ st with error := some msg, isCreatingChat := false },
         home, some request)

/-- JavaScript `String.prototype.trim`: drop whitespace from both ends.
Embedded over the character list so that concrete inputs evaluate. -/
def jsTrim (s : String) : String :=
  String.mk
    (((s.data.dropWhile Char.isWhitespace).reverse.dropWhile
        Char.isWhitespace).reverse)

/-- ChatArea.tsx `handleSendMessage`: when the input trims to a non-empty
string, construct one MEMBER message with the trimmed text, pass
(chat id, message) to `onSendMessage`, and reset the input to empty;
otherwise do nothing. `nowMs` and `nowIso` stand for `Date.now()` and
`new Date().toISOString()`. The result is the new input field value and
the optional argument pair handed to `onSendMessage`. -/
def handleSendMessage (selectedChat : Chat) (nowMs : String) (nowIso : String)
    (inputMessage : String) : String × Option (String × Message) :=
  if jsTrim inputMessage ≠ "" then
    ("", some (selectedChat.id,
      { id := "msg_" ++ nowMs
        type := "MEMBER"
        senderId := userId
        chatId := selectedChat.id
        content := { text := jsTrim inputMessage }
        createdAt := nowIso }))
  else (inputMessage, none)

/-- Sample chat "A" used by concrete witnesses. -/
def chatA : Chat :=
  { id := "A", name := some "Chat A", topic := none, context := none,
    creator := none, createdAt := "t0", updatedAt := "t0",
    memberIds := ["user"], latestMessage := none }

/-- Sample chat "B" used by concrete witnesses. -/
def chatB : Chat :=
  { id := "B", name := some "Chat B", topic := none, context := none,
    creator := none, createdAt := "t0", updatedAt := "t0",
    memberIds := ["user"], latestMessage := none }

/-- Sample message in chat "A". -/
def msgA1 : Message :=
  { id := "m1", type := "MEMBER", senderId := "user", chatId := "A",
    content := { text := "hello" }, createdAt := "t1" }

/-- Second sample message in chat "A". -/
def msgA2 : Message :=
  { id := "m2", type := "MEMBER", senderId := "gpt", chatId := "A",
    content := { text := "hi there" }, createdAt := "t2" }

/-- Sample message in chat "B". -/
def msgB1 : Message :=
  { id := "mb1", type := "MEMBER", senderId := "grok", chatId := "B",
    content := { text := "yo" }, createdAt := "t2" }

/-- Sample message whose chat "Z" is in no collection used below. -/
def msgZ : Message :=
  { id := "m3", type := "MEMBER", senderId := "gpt", chatId := "Z",
    content := { text := "stray" }, createdAt := "t3" }

/-- Sample Home state: chats A and B, chat A selected, one message shown. -/
def homeW : HomeState :=
  { chats := [chatA, chatB], currentMessages := [msgA1],
    selectedChat := some chatA, socketConnected := true }

/-- Sample Home state right after the initial snapshot: chats A and B,
nothing selected yet. -/
def homeStart : HomeState :=
  { chats := [chatA, chatB], currentMessages := [],
    selectedChat := none, socketConnected := true }

/-- Sample sidebar state with the member-selection dropdown open and no
member selected. -/
def sidebarEmpty : SidebarState :=
  { selectedMembers := [], error := none,
    isDropdownOpen := true, isCreatingChat := false }

/-- The `any` test in `addChatIfNotExists` is membership of the new chat's
id among the existing chat ids. -/
theorem addChat_any_eq (l : List Chat) (c : Chat) :
    (l.any fun chat => chat.id == c.id) = true ↔ c.id ∈ l.map Chat.id := by
  simp only [List.any_eq_true, List.mem_map, beq_iff_eq]

/-- Inserting a chat whose id is already present leaves the list unchanged
(field values of the existing entry are kept). -/
theorem addChat_noop (l : List Chat) (c : Chat) (h : c.id ∈ l.map Chat.id) :
    addChatIfNotExists l c = l := by
  unfold addChatIfNotExists
  simp [(addChat_any_eq l c).mpr h]

/-- Inserting a chat whose id is absent appends it at the end. -/
theorem addChat_push (l : List Chat) (c : Chat) (h : c.id ∉ l.map Chat.id) :
    addChatIfNotExists l c = l ++ [c] := by
  unfold addChatIfNotExists
  rw [if_neg]
  intro hc
  exact h ((addChat_any_eq l c).mp hc)

/-- The ids present after an insert are the old ids together with the new
chat's id. -/
theorem addChat_mem_id (l : List Chat) (c : Chat) (i : String) :
    i ∈ (addChatIfNotExists l c).map Chat.id ↔
      i ∈ l.map Chat.id ∨ i = c.id := by
  by_cases h : c.id ∈ l.map Chat.id
  · rw [addChat_noop l c h]
    constructor
    · exact Or.inl
    · rintro (hi | hi)
      · exact hi
      · exact hi ▸ h
  · rw [addChat_push l c h]
    simp

/-- Inserting preserves distinctness of the chat ids. -/
theorem addChat_nodup (l : List Chat) (c : Chat)
    (h : (l.map Chat.id).Nodup) :
    ((addChatIfNotExists l c).map Chat.id).Nodup := by
  by_cases hc : c.id ∈ l.map Chat.id
  · rw [addChat_noop l c hc]; exact h
  · rw [addChat_push l c hc]
    simp [List.nodup_append, h, hc]

/-- A fold of inserts preserves distinctness of the chat ids. -/
theorem foldl_addChat_nodup (pushes : List Chat) (start : List Chat)
    (h : (start.map Chat.id).Nodup) :
    ((pushes.foldl addChatIfNotExists start).map Chat.id).Nodup := by
  induction pushes generalizing start with
  | nil => exact h
  | cons c cs ih => exact ih _ (addChat_nodup _ _ h)

/-- The ids present after a fold of inserts are exactly the starting ids
together with the pushed ids. -/
theorem foldl_addChat_mem (pushes : List Chat) (start : List Chat)
    (i : String) :
    i ∈ (pushes.foldl addChatIfNotExists start).map Chat.id ↔
      i ∈ start.map Chat.id ∨ i ∈ pushes.map Chat.id := by
  induction pushes generalizing start with
  | nil => simp
  | cons c cs ih =>
    rw [List.foldl_cons, ih]
    rw [addChat_mem_id]
    simp [or_assoc, eq_comm]

/-- C2: starting from a chat collection with distinct ids, every sequence
of upsertChat (addChatIfNotExists) calls yields a collection with exactly
one entry per distinct chat id — the ids are distinct and are precisely the
starting ids united with the pushed ids — and a call whose chat id is
already present is a no-op, keeping the existing entry's field values. -/
theorem C2_upsert_union_by_id (start pushes : List Chat)
    (h : (start.map Chat.id).Nodup) :
    ((pushes.foldl addChatIfNotExists start).map Chat.id).Nodup ∧
    (∀ i : String,
      i ∈ (pushes.foldl addChatIfNotExists start).map Chat.id ↔
        i ∈ start.map Chat.id ∨ i ∈ pushes.map Chat.id) ∧
    (∀ l : List Chat, ∀ c : Chat, c.id ∈ l.map Chat.id →
      addChatIfNotExists l c = l) :=
  ⟨foldl_addChat_nodup pushes start h,
   fun i => foldl_addChat_mem pushes start i,
   fun l c hc => addChat_noop l c hc⟩

/-- C2 witness: pushing chat A twice onto the empty collection leaves a
collection with distinct ids containing id "A", and re-pushing chat A onto
a collection already holding it is a no-op. -/
theorem C2_upsert_union_by_id_witness :
    (([chatA, chatA].foldl addChatIfNotExists []).map Chat.id).Nodup ∧
    ("A" ∈ ([chatA, chatA].foldl addChatIfNotExists []).map Chat.id) ∧
    addChatIfNotExists [chatA] chatA = [chatA] := by
  refine ⟨(C2_upsert_union_by_id [] [chatA, chatA] (by simp)).1, ?_, ?_⟩
  · exact ((C2_upsert_union_by_id [] [chatA, chatA] (by simp)).2.1 "A").mpr
      (Or.inr (by simp [chatA]))
  · exact (C2_upsert_union_by_id [] [chatA, chatA] (by simp)).2.2 [chatA]
      chatA (by simp)

/-- Mapping a function that fixes every element of a list is the identity
on that list. -/
theorem map_eq_self_of_fix {α : Type} (l : List α) (f : α → α)
    (h : ∀ a ∈ l, f a = a) : l.map f = l := by
  induction l with
  | nil => rfl
  | cons x xs ih =>
    rw [List.map_cons, h x (by simp), ih (fun a ha => h a (by simp [ha]))]

/-- After `handleNewMessage`, every chat in the collection whose id is the
message's chatId carries that message as its latestMessage. -/
theorem newMessage_chats_target (st : HomeState) (m : Message) :
    ∀ c ∈ (handleNewMessage st m).chats, c.id = m.chatId →
      c.latestMessage = some m := by
  intro c hc hid
  simp only [handleNewMessage, List.mem_map] at hc
  obtain ⟨a, _, ha⟩ := hc
  by_cases hmatch : a.id = m.chatId
  · rw [if_pos (beq_iff_eq.mpr hmatch)] at ha
    rw [← ha]
  · rw [if_neg] at ha
    · exact absurd (ha ▸ hid) hmatch
    · intro hbeq
      exact hmatch (beq_iff_eq.mp hbeq)

/-- `handleNewMessage` rewrites each chat of the collection in place: the
chat with the message's chatId gets the message as latestMessage, every
other chat is kept as it was. -/
theorem newMessage_chats_update (st : HomeState) (m : Message) :
    ∀ c ∈ st.chats,
      (c.id = m.chatId →
        { c with latestMessage := some m } ∈ (handleNewMessage st m).chats) ∧
      (c.id ≠ m.chatId → c ∈ (handleNewMessage st m).chats) := by
  intro c hc
  constructor
  · intro hid
    simp only [handleNewMessage, List.mem_map]
    refine ⟨c, hc, ?_⟩
    rw [if_pos (beq_iff_eq.mpr hid)]
  · intro hid
    simp only [handleNewMessage, List.mem_map]
    refine ⟨c, hc, ?_⟩
    rw [if_neg]
    intro hbeq
    exact hid (beq_iff_eq.mp hbeq)

/-- When the message is for the active chat, `handleNewMessage` appends it
to the current messages. -/
theorem newMessage_append_active (st : HomeState) (m : Message) (sel : Chat)
    (hsel : st.selectedChat = some sel) (hmatch : sel.id = m.chatId) :
    (handleNewMessage st m).currentMessages = st.currentMessages ++ [m] := by
  simp only [handleNewMessage, hsel]
  rw [if_pos (beq_iff_eq.mpr hmatch)]

/-- When no active chat matches the message, `handleNewMessage` leaves the
current messages unchanged. -/
theorem newMessage_frame_inactive (st : HomeState) (m : Message)
    (hmiss : ∀ sel : Chat, st.selectedChat = some sel → sel.id ≠ m.chatId) :
    (handleNewMessage st m).currentMessages = st.currentMessages := by
  cases hsel : st.selectedChat with
  | none => simp only [handleNewMessage, hsel]
  | some sel =>
    simp only [handleNewMessage, hsel]
    rw [if_neg]
    intro hbeq
    exact hmiss sel hsel (beq_iff_eq.mp hbeq)

/-- C3: when a message's chatId equals the active chat's id, handling the
newMessage event appends exactly that message at the end of the active
message sequence, and every chat in the resulting collection with the
message's chatId has its latestMessage set to the message (in particular
the owning chat, which is rewritten in place). -/
theorem C3_newMessage_active_append (st : HomeState) (m : Message)
    (sel : Chat) (hsel : st.selectedChat = some sel)
    (hmatch : sel.id = m.chatId) :
    (handleNewMessage st m).currentMessages = st.currentMessages ++ [m] ∧
    (∀ c ∈ st.chats, c.id = m.chatId →
      { c with latestMessage := some m } ∈ (handleNewMessage st m).chats) ∧
    (∀ c ∈ (handleNewMessage st m).chats, c.id = m.chatId →
      c.latestMessage = some m) :=
  ⟨newMessage_append_active st m sel hsel hmatch,
   fun c hc hid => (newMessage_chats_update st m c hc).1 hid,
   newMessage_chats_target st m⟩

/-- C3 witness: with chat A active, the message m2 for chat A is appended
after m1 and chat A's entry now carries m2 as latestMessage. -/
theorem C3_newMessage_active_append_witness :
    (handleNewMessage homeW msgA2).currentMessages = [msgA1, msgA2] ∧
    { chatA with latestMessage := some msgA2 } ∈
      (handleNewMessage homeW msgA2).chats := by
  have h := C3_newMessage_active_append homeW msgA2 chatA rfl rfl
  exact ⟨h.1, h.2.1 chatA (by simp [homeW]) rfl⟩

/-- C4: when the message's chatId differs from the active chat's id (which
covers the case of no active chat), handling the newMessage event leaves
the active message sequence unchanged, while the chat of the collection
with the message's chatId has its latestMessage updated to the message and
every other chat is kept as it was. -/
theorem C4_newMessage_inactive_frame (st : HomeState) (m : Message)
    (hmiss : ∀ sel : Chat, st.selectedChat = some sel → sel.id ≠ m.chatId) :
    (handleNewMessage st m).currentMessages = st.currentMessages ∧
    (∀ c ∈ st.chats, c.id = m.chatId →
      { c with latestMessage := some m } ∈ (handleNewMessage st m).chats) ∧
    (∀ c ∈ st.chats, c.id ≠ m.chatId → c ∈ (handleNewMessage st m).chats) :=
  ⟨newMessage_frame_inactive st m hmiss,
   fun c hc hid => (newMessage_chats_update st m c hc).1 hid,
   fun c hc hid => (newMessage_chats_update st m c hc).2 hid⟩

/-- C4 witness: with chat A active, a message for chat B leaves the active
sequence unchanged, rewrites chat B with the new latestMessage, and keeps
chat A as it was. -/
theorem C4_newMessage_inactive_frame_witness :
    (handleNewMessage homeW msgB1).currentMessages = [msgA1] ∧
    { chatB with latestMessage := some msgB1 } ∈
      (handleNewMessage homeW msgB1).chats ∧
    chatA ∈ (handleNewMessage homeW msgB1).chats := by
  have h := C4_newMessage_inactive_frame homeW msgB1
    (by intro sel hs; simp [homeW] at hs; subst hs; decide)
  exact ⟨h.1, h.2.1 chatB (by simp [homeW]) rfl,
         h.2.2 chatA (by simp [homeW]) (by decide)⟩

/-- C5: a newMessage whose chatId matches no chat in the collection leaves
the chat collection unchanged (the update is a total no-op, not a crash),
and when that chat is not the active one either, the active message
sequence is unchanged as well. -/
theorem C5_newMessage_unknown_chat (st : HomeState) (m : Message)
    (hnone : ∀ c ∈ st.chats, c.id ≠ m.chatId) :
    (handleNewMessage st m).chats = st.chats ∧
    ((∀ sel : Chat, st.selectedChat = some sel → sel.id ≠ m.chatId) →
      (handleNewMessage st m).currentMessages = st.currentMessages) := by
  constructor
  · show st.chats.map _ = st.chats
    apply map_eq_self_of_fix
    intro c hc
    rw [if_neg]
    intro hbeq
    exact hnone c hc (beq_iff_eq.mp hbeq)
  · exact newMessage_frame_inactive st m

/-- C5 witness: a message for the unknown chat "Z" leaves both the chat
collection and the active message sequence of the sample state unchanged. -/
theorem C5_newMessage_unknown_chat_witness :
    (handleNewMessage homeW msgZ).chats = [chatA, chatB] ∧
    (handleNewMessage homeW msgZ).currentMessages = [msgA1] := by
  have h := C5_newMessage_unknown_chat homeW msgZ (by decide)
  exact ⟨h.1, h.2 (by intro sel hs; simp [homeW] at hs; subst hs; decide)⟩

/-- C1: the claim is violated by the code. Concretely: with chats A and B,
select A, then select B (the active sequence is cleared to []); when the
late chatHistory event for A then arrives, the handler applies A's
messages unconditionally — the payload's chatId is never compared with the
active chat — so the active message sequence becomes A's history [m1]
although B is the active chat, instead of remaining unchanged ([]). -/
theorem C1_stale_history_applied :
    ((handleChatSelect (handleChatSelect homeStart chatA).1 chatB).1
      ).selectedChat = some chatB ∧
    (handleChatHistory
        (handleChatSelect (handleChatSelect homeStart chatA).1 chatB).1
        chatA.id [msgA1]).currentMessages = [msgA1] ∧
    chatA.id ≠ chatB.id ∧
    ((handleChatSelect (handleChatSelect homeStart chatA).1 chatB).1
      ).currentMessages = [] := by
  decide

/-- C6: each of the four API client operations succeeds with the parsed
JSON body exactly when the response status is ok, and on a non-ok status
it fails with an error message that carries the response's statusText (the
message is some operation-specific text followed by the statusText). -/
theorem C6_api_error_contract :
    (∀ r : ApiResponse (List Member),
      (r.ok = true → getAllMembers r = Except.ok r.json) ∧
      (r.ok = false → ∃ s : String,
        getAllMembers r = Except.error (s ++ r.statusText))) ∧
    (∀ d : CreateChatData, ∀ r : ApiResponse Chat,
      (r.ok = true → createChat d r = Except.ok r.json) ∧
      (r.ok = false → ∃ s : String,
        createChat d r = Except.error (s ++ r.statusText))) ∧
    (∀ d : UpdateMemberData, ∀ r : ApiResponse Member,
      (r.ok = true → updateMember d r = Except.ok r.json) ∧
      (r.ok = false → ∃ s : String,
        updateMember d r = Except.error (s ++ r.statusText))) ∧
    (∀ d : UpdateChatData, ∀ r : ApiResponse UpdatedChat,
      (r.ok = true → updateChat d r = Except.ok r.json) ∧
      (r.ok = false → ∃ s : String,
        updateChat d r = Except.error (s ++ r.statusText))) := by
  refine ⟨fun r => ⟨fun h => ?_, fun h => ⟨"Failed to fetch members: ", ?_⟩⟩,
          fun d r => ⟨fun h => ?_, fun h => ⟨"Failed to create chat: ", ?_⟩⟩,
          fun d r => ⟨fun h => ?_, fun h => ⟨"Failed to update member: ", ?_⟩⟩,
          fun d r => ⟨fun h => ?_, fun h => ⟨"Failed to update chat: ", ?_⟩⟩⟩
  all_goals simp [getAllMembers, createChat, updateMember, updateChat, h]

/-- C6 witness: a 200-style response yields the parsed body, and a failed
response yields an error message ending in the statusText. -/
theorem C6_api_error_contract_witness :
    getAllMembers { ok := true, statusText := "OK", json := [] } =
      Except.ok [] ∧
    getAllMembers { ok := false, statusText := "Not Found", json := [] } =
      Except.error ("Failed to fetch members: " ++ "Not Found") := by
  refine ⟨(C6_api_error_contract.1
      { ok := true, statusText := "OK", json := [] }).1 rfl, ?_⟩
  obtain ⟨s, hs⟩ := (C6_api_error_contract.1
      { ok := false, statusText := "Not Found", json := [] }).2 rfl
  refine hs.trans ?_
  simp [getAllMembers] at hs
  rw [← hs]
  rfl

/-- C7: with zero selected members, handleCreateChat issues no createChat
request (so no network call and nothing that can throw), sets the inline
error text, and leaves the Home state — the chat collection and the active
chat — entirely unchanged. -/
theorem C7_create_chat_validation (st : SidebarState) (home : HomeState)
    (apiResult : Except String Chat) (h : st.selectedMembers = []) :
    (handleCreateChat st home apiResult).2.2 = none ∧
    (handleCreateChat st home apiResult).1.error =
      some "Please select at least one member" ∧
    (handleCreateChat st home apiResult).2.1 = home ∧
    (handleCreateChat st home apiResult).2.1.chats = home.chats ∧
    (handleCreateChat st home apiResult).2.1.selectedChat =
      home.selectedChat := by
  refine ⟨?_, ?_, ?_, ?_, ?_⟩ <;> simp [handleCreateChat, h]

/-- C7 witness: a concrete sidebar state with no selected members, over the
sample Home state, issues no request, sets the error, and keeps the Home
state. -/
theorem C7_create_chat_validation_witness :
    (handleCreateChat sidebarEmpty homeW (Except.error "boom")).2.2 = none ∧
    (handleCreateChat sidebarEmpty homeW (Except.error "boom")).1.error =
      some "Please select at least one member" ∧
    (handleCreateChat sidebarEmpty homeW (Except.error "boom")).2.1 =
      homeW := by
  have h := C7_create_chat_validation sidebarEmpty homeW
    (Except.error "boom") rfl
  exact ⟨h.1, h.2.1, h.2.2.1⟩

/-- C8: selecting a chat sets the active chat reference to it, clears the
message view to [] in the same synchronous step, keeps the chat
collection, and (with a live socket) emits exactly the chatHistory request
for the selected chat's id. -/
theorem C8_chat_select (st : HomeState) (chat : Chat)
    (hsock : st.socketConnected = true) :
    (handleChatSelect st chat).1.selectedChat = some chat ∧
    (handleChatSelect st chat).1.currentMessages = [] ∧
    (handleChatSelect st chat).1.chats = st.chats ∧
    (handleChatSelect st chat).2 = [Command.chatHistoryReq chat.id] := by
  refine ⟨rfl, rfl, rfl, ?_⟩
  simp [handleChatSelect, hsock]

/-- C8 witness: selecting chat B from the sample state. -/
theorem C8_chat_select_witness :
    (handleChatSelect homeW chatB).1.selectedChat = some chatB ∧
    (handleChatSelect homeW chatB).1.currentMessages = [] ∧
    (handleChatSelect homeW chatB).2 =
      [Command.chatHistoryReq chatB.id] := by
  have h := C8_chat_select homeW chatB rfl
  exact ⟨h.1, h.2.1, h.2.2.2⟩

/-- C9: when the input trims to the empty string, handleSendMessage changes
nothing and hands nothing to onSendMessage; when the trim is non-empty, it
resets the input to "" and hands onSendMessage exactly one MEMBER message
for the selected chat carrying the trimmed text. -/
theorem C9_send_message (chat : Chat) (nowMs nowIso input : String) :
    (jsTrim input = "" →
      handleSendMessage chat nowMs nowIso input = (input, none)) ∧
    (jsTrim input ≠ "" →
      (handleSendMessage chat nowMs nowIso input).1 = "" ∧
      ∃ m : Message,
        (handleSendMessage chat nowMs nowIso input).2 = some (chat.id, m) ∧
        m.type = "MEMBER" ∧ m.chatId = chat.id ∧
        m.content.text = jsTrim input ∧ m.senderId = userId) := by
  constructor
  · intro h
    simp [handleSendMessage, h]
  · intro h
    refine ⟨?_, ?_⟩
    · simp [handleSendMessage, h]
    · refine ⟨{ id := "msg_" ++ nowMs, type := "MEMBER", senderId := userId,
                chatId := chat.id, content := { text := jsTrim input },
                createdAt := nowIso }, ?_, rfl, rfl, rfl, rfl⟩
      simp [handleSendMessage, h]

/-- C9 witness: a whitespace-only input is left alone with no message, and
the input " hi " produces a MEMBER message with text "hi" and clears the
field. -/
theorem C9_send_message_witness :
    handleSendMessage chatA "1" "t4" "  " = ("  ", none) ∧
    (handleSendMessage chatA "1" "t4" " hi ").1 = "" ∧
    ((handleSendMessage chatA "1" "t4" " hi ").2).isSome = true := by
  refine ⟨(C9_send_message chatA "1" "t4" "  ").1 (by decide), ?_, ?_⟩
  · exact ((C9_send_message chatA "1" "t4" " hi ").2 (by decide)).1
  · obtain ⟨m, hm, -⟩ := ((C9_send_message chatA "1" "t4" " hi ").2
      (by decide)).2
    simp [hm]

/-- C10: the optimistic local send appends the message to the active
sequence and (with a live socket) emits exactly the sendMessage command,
while the chat collection — including every latestMessage preview — is
left entirely unchanged; only handling the later server-echoed newMessage
event sets the owning chat's latestMessage to the message. -/
theorem C10_local_send_frame (st : HomeState) (chatId : String)
    (m : Message) (hsock : st.socketConnected = true) :
    (addNewMessage st chatId m).1.chats = st.chats ∧
    (addNewMessage st chatId m).1.currentMessages =
      st.currentMessages ++ [m] ∧
    (addNewMessage st chatId m).2 =
      [Command.sendMessage chatId m.content.text] ∧
    (∀ c ∈ (handleNewMessage (addNewMessage st chatId m).1 m).chats,
      c.id = m.chatId → c.latestMessage = some m) := by
  refine ⟨rfl, rfl, ?_, ?_⟩
  · simp [addNewMessage, hsock]
  · exact newMessage_chats_target (addNewMessage st chatId m).1 m

/-- C10 witness: locally sending m2 in chat A keeps chats [A, B] with their
latestMessage previews, appends m2 to the view, emits the command, and the
later echo sets chat A's latestMessage. -/
theorem C10_local_send_frame_witness :
    (addNewMessage homeW "A" msgA2).1.chats = [chatA, chatB] ∧
    (addNewMessage homeW "A" msgA2).1.currentMessages = [msgA1, msgA2] ∧
    (addNewMessage homeW "A" msgA2).2 =
      [Command.sendMessage "A" msgA2.content.text] := by
  have h := C10_local_send_frame homeW "A" msgA2 rfl
  exact ⟨h.1, h.2.1, h.2.2.1⟩

end SocmindClient
